import Mathlib

/-!
Shallow embedding of the Demo-App persistence layer: the local (in-memory)
backend, the IndexedDB-backed "SQLite" backend, the Express server's in-memory
store, and the ApiService request/fallback layer.  Timestamps are modelled as
natural numbers (epoch milliseconds); both the numeric clock and the ISO
strings written by the source order identically, so Nat with its order is a
faithful model of the source's time values.
-/

namespace DemoApp

abbrev Timestamp := Nat

/-- The DataItem record.  String-valued fields that a JS object may simply
lack (a JSON body with a missing key) are modelled as Option: none models an
absent key. -/
structure DataItem where
  id : String
  name : Option String
  description : Option String
  status : Option String
  category : Option String
  quantity : Option Int
  user_id : String
  created_at : Timestamp
  updated_at : Timestamp
deriving DecidableEq

structure User where
  id : String
  email : String
  password : String
  created_at : Timestamp
deriving DecidableEq

structure SessionUser where
  id : String
  email : String
deriving DecidableEq

structure Session where
  access_token : String
  user : SessionUser
deriving DecidableEq

/-- A partial update payload: some v models a JSON body that contains the key
with value v; none models an absent key.  Mirrors the arbitrary-key updates
object accepted by the updateItem implementations. -/
structure ItemPatch where
  id : Option String := none
  name : Option String := none
  description : Option String := none
  status : Option String := none
  category : Option String := none
  quantity : Option Int := none
  user_id : Option String := none
  created_at : Option Timestamp := none
  updated_at : Option Timestamp := none
deriving DecidableEq

/-- A createItem payload: the item fields excluding id and timestamps, with
the caller-supplied user id. -/
structure CreatePayload where
  name : Option String := none
  description : Option String := none
  status : Option String := none
  category : Option String := none
  quantity : Option Int := none
  user_id : String
deriving DecidableEq

/-- One JS object-spread step for a mandatory field: a key present in the
patch overwrites, an absent key keeps the old value. -/
def patchField (p : Option α) (old : α) : α := p.getD old

/-- One JS object-spread step for an Option-modelled field. -/
def patchFieldO (p : Option α) (old : Option α) : Option α :=
  match p with
  | some v => some v
  | none => old

/-- The object spread performed by LocalDatabase.updateItem and the Express
PUT handler: every key present in the patch overwrites the existing record,
including id and created_at, and updated_at is then set to the current time
unconditionally (it is written after the spread). -/
def spreadPatch (item : DataItem) (p : ItemPatch) (now : Timestamp) : DataItem :=
  { id := patchField p.id item.id
    name := patchFieldO p.name item.name
    description := patchFieldO p.description item.description
    status := patchFieldO p.status item.status
    category := patchFieldO p.category item.category
    quantity := patchFieldO p.quantity item.quantity
    user_id := patchField p.user_id item.user_id
    created_at := patchField p.created_at item.created_at
    updated_at := now }

/-- The merge performed by SQLiteDatabase.updateItem: the same spread, but the
original id and created_at are written back afterwards, so they are preserved
even when the patch names them. -/
def sqliteMerge (item : DataItem) (p : ItemPatch) (now : Timestamp) : DataItem :=
  { spreadPatch item p now with
    id := item.id
    created_at := item.created_at }

/-- Replace the first element satisfying pred, as JS findIndex followed by an
assignment at that index does. -/
def updateFirstBy (l : List α) (pred : α → Bool) (f : α → α) : List α :=
  match l with
  | [] => []
  | x :: rest => if pred x then f x :: rest else x :: updateFirstBy rest pred f

/-! ### LocalDatabase (the in-memory reference backend) -/

structure LocalDB where
  users : List User
  dataItems : List DataItem
deriving DecidableEq

/-- The session object the local backend builds for a user. -/
def localSession (u : User) : Session :=
  { access_token := "local_token_" ++ u.id
    user := { id := u.id, email := u.email } }

/-- LocalDatabase.signInWithPassword: finds the first user matching both email
and password, and throws an Invalid-email-or-password error otherwise. -/
def localSignIn (db : LocalDB) (email password : String) : Except String Session :=
  match db.users.find? (fun u => u.email == email && u.password == password) with
  | none => .error "Invalid email or password"
  | some u => .ok (localSession u)

/-- LocalDatabase.getSession: ignores any token and answers with a session for
the first stored user, or null when there are no users. -/
def localGetSession (db : LocalDB) : Option Session :=
  match db.users.head? with
  | some u => some (localSession u)
  | none => none

/-- LocalDatabase.fetchData: a plain filter on user_id, in storage order, with
no sorting. -/
def localFetchData (db : LocalDB) (userId : String) : List DataItem :=
  db.dataItems.filter (fun item => item.user_id == userId)

/-- The record LocalDatabase.createItem builds: the payload spread followed by
a Date.now based id and fresh timestamps (the payload cannot override them,
they are written after the spread). -/
def localNewItem (p : CreatePayload) (now : Timestamp) : DataItem :=
  { id := "local_" ++ toString now
    name := p.name
    description := p.description
    status := p.status
    category := p.category
    quantity := p.quantity
    user_id := p.user_id
    created_at := now
    updated_at := now }

/-- LocalDatabase.createItem: performs no validation of the payload; always
appends the new record and returns it. -/
def localCreateItem (db : LocalDB) (p : CreatePayload) (now : Timestamp) :
    DataItem × LocalDB :=
  let newItem := localNewItem p now
  (newItem, { db with dataItems := db.dataItems ++ [newItem] })

/-- LocalDatabase.updateItem: findIndex by id, throw Item-not-found when
absent, else assign the spread-merged record at that index and return it. -/
def localUpdateItem (db : LocalDB) (id : String) (p : ItemPatch) (now : Timestamp) :
    Except String (DataItem × LocalDB) :=
  match db.dataItems.find? (fun item => item.id == id) with
  | none => .error "Item not found"
  | some item =>
      .ok (spreadPatch item p now, { db with dataItems := updateFirstBy db.dataItems (fun it => it.id == id) (fun it => spreadPatch it p now) })

/-- LocalDatabase.deleteItem: findIndex by id, throw Item-not-found when
absent, else splice the first match out. -/
def localDeleteItem (db : LocalDB) (id : String) : Except String LocalDB :=
  if db.dataItems.any (fun item => item.id == id) then
    .ok { db with dataItems := db.dataItems.eraseP (fun item => item.id == id) }
  else .error "Item not found"

/-! ### SQLiteDatabase (the IndexedDB-backed backend) -/

structure SqliteDB where
  users : List User
  items : List DataItem
deriving DecidableEq

/-- A resolved auth result: the IndexedDB backend never throws for bad
credentials, it resolves a null session together with an error message. -/
structure AuthResult where
  session : Option Session
  error : Option String
deriving DecidableEq

def sqliteSession (u : User) : Session :=
  { access_token := "sqlite_token_" ++ u.id
    user := { id := u.id, email := u.email } }

/-- SQLiteDatabase.signInWithPassword: looks the user up through the unique
email index, then compares the password; resolves a null session with an
error message on any mismatch. -/
def sqliteSignIn (db : SqliteDB) (email password : String) : AuthResult :=
  match db.users.find? (fun u => u.email == email) with
  | none => { session := none, error := some "Invalid email or password" }
  | some u =>
      if u.password == password then { session := some (sqliteSession u), error := none }
      else { session := none, error := some "Invalid email or password" }

/-- SQLiteDatabase.getSession: ignores any token and answers with a session
for the first stored user. -/
def sqliteGetSession (db : SqliteDB) : Option Session :=
  match db.users.head? with
  | some u => some (sqliteSession u)
  | none => none

/-- The comparator of SQLiteDatabase.fetchData: sort so that larger
created_at comes first (descending, newest first). -/
def byNewest (a b : DataItem) : Bool := decide (b.created_at ≤ a.created_at)

/-- SQLiteDatabase.fetchData: the user's items from the user_id index, then a
stable sort into descending created_at order. -/
def sqliteFetchData (db : SqliteDB) (userId : String) : List DataItem :=
  (db.items.filter (fun item => item.user_id == userId)).mergeSort byNewest

def sqliteNewItem (p : CreatePayload) (now : Timestamp) : DataItem :=
  { localNewItem p now with id := "sqlite_" ++ toString now }

/-- SQLiteDatabase.createItem: no payload validation; a store add on the
id-keyed object store, which rejects with a ConstraintError when the key is
already present. -/
def sqliteCreateItem (db : SqliteDB) (p : CreatePayload) (now : Timestamp) :
    Except String (DataItem × SqliteDB) :=
  if db.items.any (fun item => item.id == (sqliteNewItem p now).id) then .error "ConstraintError"
  else .ok (sqliteNewItem p now, { db with items := db.items ++ [sqliteNewItem p now] })

/-- SQLiteDatabase.updateItem: get by key; when absent the promise resolves
with null data and an Item-not-found message, modelled as none; otherwise the
merged record (original id and created_at written back) is put at its key. -/
def sqliteUpdateItem (db : SqliteDB) (id : String) (p : ItemPatch) (now : Timestamp) :
    Option (DataItem × SqliteDB) :=
  match db.items.find? (fun item => item.id == id) with
  | none => none
  | some item =>
      some (sqliteMerge item p now, { db with items := updateFirstBy db.items (fun it => it.id == id) (fun it => sqliteMerge it p now) })

structure DeleteResult where
  error : Option String
deriving DecidableEq

/-- SQLiteDatabase.deleteItem: an IndexedDB key delete, which succeeds whether
or not a record with that key exists; the store holds at most one record per
key, so removing every match models it. -/
def sqliteDeleteItem (db : SqliteDB) (id : String) : DeleteResult × SqliteDB :=
  ({ error := none }, { db with items := db.items.filter (fun item => item.id != id) })

/-! ### Token helpers (ApiService.getUserIdFromToken, server validateToken) -/

/-- Model of the JS startsWith check: strStarts s p holds when p is a prefix
of s. -/
def strStarts (s p : String) : Bool := p.data.isPrefixOf s.data

/-- Model of replacing the first occurrence of p in s by the empty string when
s is known to start with p: the first occurrence is then the leading one, so
the replacement strips the prefix, i.e. drops length-of-p characters. -/
def dropTag (s p : String) : String := String.mk (s.data.drop p.data.length)

/-- ApiService.getUserIdFromToken: null for a missing token; strips the known
backend prefixes in order; an unrecognized prefix yields null. -/
def getUserIdFromToken (token : Option String) : Option String :=
  match token with
  | none => none
  | some t =>
      if strStarts t "local_token_" then some (dropTag t "local_token_")
      else if strStarts t "pg_token_" then some (dropTag t "pg_token_")
      else if strStarts t "sqlite_token_" then some (dropTag t "sqlite_token_")
      else none

/-! ### ApiService: the Data Service with remote transport and local fallback -/

/-- A createItem request body: the item fields without a user id (the fallback
attaches the id extracted from the token). -/
structure CreateBody where
  name : Option String := none
  description : Option String := none
  status : Option String := none
  category : Option String := none
  quantity : Option Int := none
deriving DecidableEq

structure ServerUser where
  id : String
  email : String
  password : String
  name : String
deriving DecidableEq

structure ServerState where
  users : List ServerUser
  items : List DataItem
  sessions : List (String × SessionUser)
deriving DecidableEq

/-- server.js validateToken: requires the Bearer scheme, strips it, and looks
the stored session up; null on any failure. -/
def validateToken (sessions : List (String × SessionUser)) (authHeader : Option String) :
    Option SessionUser :=
  match authHeader with
  | none => none
  | some h =>
      if strStarts h "Bearer " then
        match sessions.find? (fun kv => kv.1 == dropTag h "Bearer ") with
        | some kv => some kv.2
        | none => none
      else none

inductive ServerRespData where
  | itemD (i : DataItem)
  | itemsD (l : List DataItem)
  | deletedD (message : String) (item : DataItem)
deriving DecidableEq

structure HttpResponse where
  status : Nat
  data : Option ServerRespData
  error : Option String
deriving DecidableEq

/-- JS truthiness of an optional string field: a missing key and the empty
string are falsy. -/
def falsyStr : Option String → Bool
  | none => true
  | some s => s == ""

/-- JS quantity-or-1: a missing key and zero both give the default. -/
def quantityOr1 : Option Int → Int
  | none => 1
  | some q => if q == 0 then 1 else q

/-- JS category-or-general. -/
def categoryOrGeneral : Option String → String
  | none => "general"
  | some c => if c == "" then "general" else c

/-- The record the POST /api/data handler builds: the id is the decimal
rendering of the current collection length plus one. -/
def serverNewItem (st : ServerState) (b : CreateBody) (user : SessionUser)
    (now : Timestamp) : DataItem :=
  { id := toString (st.items.length + 1)
    name := b.name
    description := b.description
    status := b.status
    category := some (categoryOrGeneral b.category)
    quantity := some (quantityOr1 b.quantity)
    user_id := user.id
    created_at := now
    updated_at := now }

/-- POST /api/data: 401 without a valid session, 400 when name, description
or status is falsy, otherwise append the new item and answer 201 with it. -/
def serverCreateItem (st : ServerState) (authHeader : Option String) (b : CreateBody)
    (now : Timestamp) : HttpResponse × ServerState :=
  match validateToken st.sessions authHeader with
  | none => ({ status := 401, data := none, error := some "Unauthorized" }, st)
  | some user =>
      if falsyStr b.name || falsyStr b.description || falsyStr b.status then
        ({ status := 400, data := none,
           error := some "Name, description, and status are required" }, st)
      else
        let newItem := serverNewItem st b user now
        ({ status := 201, data := some (.itemD newItem), error := none },
         { st with items := st.items ++ [newItem] })

/-- PUT /api/data/:id: findIndex on id and session-owner together; 404 when no
owned item matches; otherwise assign the spread-merged record at that index. -/
def serverUpdateItem (st : ServerState) (authHeader : Option String) (id : String)
    (p : ItemPatch) (now : Timestamp) : HttpResponse × ServerState :=
  match validateToken st.sessions authHeader with
  | none => ({ status := 401, data := none, error := some "Unauthorized" }, st)
  | some user =>
      match st.items.find? (fun item => item.id == id && item.user_id == user.id) with
      | none => ({ status := 404, data := none, error := some "Item not found" }, st)
      | some item =>
          let newItems := updateFirstBy st.items
            (fun it => it.id == id && it.user_id == user.id)
            (fun it => spreadPatch it p now)
          ({ status := 200, data := some (.itemD (spreadPatch item p now)), error := none },
           { st with items := newItems })

/-- DELETE /api/data/:id: findIndex on id and session-owner together; 404 when
no owned item matches; otherwise splice the first match out and answer with
the deleted item. -/
def serverDeleteItem (st : ServerState) (authHeader : Option String) (id : String) :
    HttpResponse × ServerState :=
  match validateToken st.sessions authHeader with
  | none => ({ status := 401, data := none, error := some "Unauthorized" }, st)
  | some user =>
      match st.items.find? (fun item => item.id == id && item.user_id == user.id) with
      | none => ({ status := 404, data := none, error := some "Item not found" }, st)
      | some item =>
          let newItems := st.items.eraseP (fun it => it.id == id && it.user_id == user.id)
          ({ status := 200,
             data := some (.deletedD "Item deleted successfully" item),
             error := none },
           { st with items := newItems })

/-! ### Operation traces over the SQLite backend (for the timestamp invariant) -/

inductive SqliteOp where
  | createOp (p : CreatePayload)
  | updateOp (id : String) (patch : ItemPatch)
  | deleteOp (id : String)
deriving DecidableEq

/-- One data operation against the SQLite backend at a given time; a failing
create or a not-found update leaves the store unchanged. -/
def sqliteStep (db : SqliteDB) (op : SqliteOp) (now : Timestamp) : SqliteDB :=
  match op with
  | .createOp p =>
      match sqliteCreateItem db p now with
      | .ok r => r.2
      | .error _ => db
  | .updateOp id patch =>
      match sqliteUpdateItem db id patch now with
      | some r => r.2
      | none => db
  | .deleteOp id => (sqliteDeleteItem db id).2

/-- Run a timed sequence of data operations. -/
def sqliteRun (db : SqliteDB) : List (Timestamp × SqliteOp) → SqliteDB
  | [] => db
  | (t, op) :: rest => sqliteRun (sqliteStep db op t) rest

/-- The times of a trace are nondecreasing and start no earlier than t. -/
def timesLE : Timestamp → List (Timestamp × SqliteOp) → Bool
  | _, [] => true
  | t, (n, _) :: rest => decide (t ≤ n) && timesLE n rest

/-- All stored timestamps are bounded by t and well ordered within each item. -/
def stamped (db : SqliteDB) (t : Timestamp) : Prop :=
  ∀ item ∈ db.items,
    item.created_at ≤ t ∧ item.updated_at ≤ t ∧ item.created_at ≤ item.updated_at

/-! ### Helper lemmas -/

theorem strStarts_append (p s : String) : strStarts (p ++ s) p = true := by
  simp [strStarts]

theorem dropTag_append (p s : String) : dropTag (p ++ s) p = s := by
  cases s with
  | mk d => simp [dropTag, String.data_append, List.drop_left]

theorem pg_not_localTok (s : String) :
    strStarts ("pg_token_" ++ s) "local_token_" = false := by
  show List.isPrefixOf ('l' :: 'o' :: 'c' :: 'a' :: 'l' :: '_' :: 't' :: 'o' :: 'k' :: 'e' :: 'n' :: '_' :: [])
    (('p' :: 'g' :: '_' :: 't' :: 'o' :: 'k' :: 'e' :: 'n' :: '_' :: []) ++ s.data) = false
  simp [List.isPrefixOf]

theorem sqlite_not_localTok (s : String) :
    strStarts ("sqlite_token_" ++ s) "local_token_" = false := by
  show List.isPrefixOf ('l' :: 'o' :: 'c' :: 'a' :: 'l' :: '_' :: 't' :: 'o' :: 'k' :: 'e' :: 'n' :: '_' :: [])
    (('s' :: 'q' :: 'l' :: 'i' :: 't' :: 'e' :: '_' :: 't' :: 'o' :: 'k' :: 'e' :: 'n' :: '_' :: []) ++ s.data) = false
  simp [List.isPrefixOf]

theorem sqlite_not_pgTok (s : String) :
    strStarts ("sqlite_token_" ++ s) "pg_token_" = false := by
  show List.isPrefixOf ('p' :: 'g' :: '_' :: 't' :: 'o' :: 'k' :: 'e' :: 'n' :: '_' :: [])
    (('s' :: 'q' :: 'l' :: 'i' :: 't' :: 'e' :: '_' :: 't' :: 'o' :: 'k' :: 'e' :: 'n' :: '_' :: []) ++ s.data) = false
  simp [List.isPrefixOf]

theorem getUserIdFromToken_localTok (uid : String) :
    getUserIdFromToken (some ("local_token_" ++ uid)) = some uid := by
  simp [getUserIdFromToken, strStarts_append, dropTag_append]

theorem getUserIdFromToken_pgTok (uid : String) :
    getUserIdFromToken (some ("pg_token_" ++ uid)) = some uid := by
  simp [getUserIdFromToken, strStarts_append, dropTag_append, pg_not_localTok]

theorem getUserIdFromToken_sqliteTok (uid : String) :
    getUserIdFromToken (some ("sqlite_token_" ++ uid)) = some uid := by
  simp [getUserIdFromToken, strStarts_append, dropTag_append, sqlite_not_localTok,
    sqlite_not_pgTok]

theorem mem_updateFirstBy {l : List α} {pred : α → Bool} {f : α → α} {x : α}
    (h : x ∈ updateFirstBy l pred f) : x ∈ l ∨ ∃ y, y ∈ l ∧ x = f y := by
  induction l with
  | nil => simp [updateFirstBy] at h
  | cons a rest ih =>
      by_cases hp : pred a
      · simp [updateFirstBy, hp] at h
        rcases h with h | h
        · exact Or.inr ⟨a, by simp, h⟩
        · exact Or.inl (by simp [h])
      · simp [updateFirstBy, hp] at h
        rcases h with h | h
        · exact Or.inl (by simp [h])
        · rcases ih h with h' | ⟨y, hy, hxy⟩
          · exact Or.inl (List.mem_cons_of_mem _ h')
          · exact Or.inr ⟨y, List.mem_cons_of_mem _ hy, hxy⟩

theorem eraseP_id_not_mem {l : List DataItem} {id : String}
    (hnd : l.Pairwise (fun a b => a.id ≠ b.id)) {x : DataItem}
    (hx : x ∈ l.eraseP (fun it => it.id == id)) : x.id ≠ id := by
  induction l with
  | nil => simp [List.eraseP] at hx
  | cons a rest ih =>
      rcases List.pairwise_cons.mp hnd with ⟨ha, hrest⟩
      rw [List.eraseP_cons] at hx
      by_cases hp : a.id == id
      · simp only [hp, cond_true] at hx
        have hne : a.id ≠ x.id := ha x hx
        have heq : a.id = id := by simpa using hp
        intro hxe
        exact hne (by rw [hxe, heq])
      · have hp' : (a.id == id) = false := by simpa using hp
        simp only [hp', cond_false] at hx
        rcases List.mem_cons.mp hx with h | h
        · subst h
          simpa using hp
        · exact ih hrest h

theorem sqliteMerge_id (item : DataItem) (p : ItemPatch) (now : Timestamp) :
    (sqliteMerge item p now).id = item.id := rfl

theorem sqliteMerge_created_at (item : DataItem) (p : ItemPatch) (now : Timestamp) :
    (sqliteMerge item p now).created_at = item.created_at := rfl

theorem sqliteMerge_updated_at (item : DataItem) (p : ItemPatch) (now : Timestamp) :
    (sqliteMerge item p now).updated_at = now := rfl

theorem stamped_mono {db : SqliteDB} {t n : Timestamp} (h : stamped db t) (hle : t ≤ n) :
    stamped db n := fun item hm =>
  ⟨le_trans (h item hm).1 hle, le_trans (h item hm).2.1 hle, (h item hm).2.2⟩

theorem stamped_step {db : SqliteDB} {t n : Timestamp} {op : SqliteOp}
    (h : stamped db t) (hle : t ≤ n) : stamped (sqliteStep db op n) n := by
  cases op with
  | createOp p =>
      simp only [sqliteStep]
      cases hc : sqliteCreateItem db p n with
      | error e => exact stamped_mono h hle
      | ok r =>
          unfold sqliteCreateItem at hc
          split at hc
          · exact absurd hc (by simp)
          · simp only [Except.ok.injEq] at hc
            subst hc
            intro item hm
            rcases List.mem_append.mp hm with hm | hm
            · exact stamped_mono h hle item hm
            · have : item = sqliteNewItem p n := by simpa using hm
              subst this
              exact ⟨le_refl n, le_refl n, le_refl n⟩
  | updateOp id patch =>
      simp only [sqliteStep]
      cases hu : sqliteUpdateItem db id patch n with
      | none => exact stamped_mono h hle
      | some r =>
          unfold sqliteUpdateItem at hu
          cases hf : db.items.find? (fun item => item.id == id) with
          | none => rw [hf] at hu; exact absurd hu (by simp)
          | some it0 =>
              rw [hf] at hu
              simp only [Option.some.injEq] at hu
              subst hu
              intro item hm
              rcases mem_updateFirstBy hm with hmm | ⟨y, hy, hxy⟩
              · exact stamped_mono h hle item hmm
              · subst hxy
                refine ⟨?_, ?_, ?_⟩
                · rw [sqliteMerge_created_at]
                  exact le_trans (h y hy).1 hle
                · rw [sqliteMerge_updated_at]
                · rw [sqliteMerge_created_at, sqliteMerge_updated_at]
                  exact le_trans (h y hy).1 hle
  | deleteOp id =>
      intro item hm
      simp only [sqliteStep, sqliteDeleteItem] at hm
      exact stamped_mono h hle item (List.mem_of_mem_filter hm)

def endTime : Timestamp → List (Timestamp × SqliteOp) → Timestamp
  | t, [] => t
  | _, (n, _) :: rest => endTime n rest

theorem stamped_run {ops : List (Timestamp × SqliteOp)} {db : SqliteDB} {t : Timestamp}
    (h : stamped db t) (hops : timesLE t ops = true) :
    stamped (sqliteRun db ops) (endTime t ops) := by
  induction ops generalizing db t with
  | nil => exact h
  | cons x rest ih =>
      obtain ⟨n, op⟩ := x
      simp only [timesLE, Bool.and_eq_true, decide_eq_true_eq] at hops
      exact ih (stamped_step h hops.1) hops.2

/-! ### Concrete fixtures -/

def userA : User :=
  { id := "test-user-1", email := "test@example.com", password := "password123",
    created_at := 0 }

def userB : User :=
  { id := "user-2", email := "second@example.com", password := "hunter2",
    created_at := 0 }

def mkItem (id uid : String) (c u : Timestamp) : DataItem :=
  { id := id, name := some "n", description := some "d", status := some "active",
    category := none, quantity := none, user_id := uid, created_at := c,
    updated_at := u }

/-! ### C1: transport failures are never propagated -/

/-- C8: getUserIdFromToken returns the suffix after the known backend token
tags local_token_, pg_token_ and sqlite_token_, and null (never an error) for
a missing token or a token carrying none of the known tags. -/
theorem token_validation_strips_known_tag :
    getUserIdFromToken none = none
    ∧ (∀ s, getUserIdFromToken (some ("local_token_" ++ s)) = some s)
    ∧ (∀ s, getUserIdFromToken (some ("pg_token_" ++ s)) = some s)
    ∧ (∀ s, getUserIdFromToken (some ("sqlite_token_" ++ s)) = some s)
    ∧ (∀ t, strStarts t "local_token_" = false → strStarts t "pg_token_" = false →
        strStarts t "sqlite_token_" = false → getUserIdFromToken (some t) = none) := by
  refine ⟨rfl, getUserIdFromToken_localTok, getUserIdFromToken_pgTok,
    getUserIdFromToken_sqliteTok, ?_⟩
  intro t h1 h2 h3
  simp [getUserIdFromToken, h1, h2, h3]

/-- Witness for C8 at concrete tokens. -/
theorem token_validation_strips_known_tag_witness :
    getUserIdFromToken (some ("local_token_" ++ "abc")) = some "abc"
    ∧ getUserIdFromToken (some "weird_token") = none :=
  ⟨token_validation_strips_known_tag.2.1 "abc",
   token_validation_strips_known_tag.2.2.2.2 "weird_token" (by decide) (by decide)
     (by decide)⟩

/-! ### C10: the HTTP surface acts only on the session user's items -/

def w10sess : SessionUser := { id := "1", email := "test@example.com" }

def w10st : ServerState :=
  { users := [], items := [mkItem "9" "2" 0 0], sessions := [("tok1", w10sess)] }

/-- C10: through the Express handlers, PUT and DELETE on an id that exists but
belongs to a different user answer 404 Item not found and leave the items
collection unchanged. -/
theorem put_delete_enforce_ownership :
    ∀ (st : ServerState) (auth : Option String) (user : SessionUser) (id : String)
      (p : ItemPatch) (now : Timestamp),
      validateToken st.sessions auth = some user →
      (∃ it ∈ st.items, it.id = id) →
      (∀ it ∈ st.items, it.id = id → it.user_id ≠ user.id) →
      serverUpdateItem st auth id p now
          = ({ status := 404, data := none, error := some "Item not found" }, st)
      ∧ serverDeleteItem st auth id
          = ({ status := 404, data := none, error := some "Item not found" }, st) := by
  intro st auth user id p now hval hex hdiff
  have hfind : st.items.find? (fun item => item.id == id && item.user_id == user.id)
      = none := by
    rw [List.find?_eq_none]
    intro x hx
    simp only [Bool.and_eq_true, beq_iff_eq, not_and]
    exact fun hid => hdiff x hx hid
  constructor
  · simp [serverUpdateItem, hval, hfind]
  · simp [serverDeleteItem, hval, hfind]

/-- Witness for C10: a stored item with id 9 owned by user 2, addressed under
user 1's session. -/
theorem put_delete_enforce_ownership_witness :
    serverUpdateItem w10st (some "Bearer tok1") "9" {} 5
        = ({ status := 404, data := none, error := some "Item not found" }, w10st)
    ∧ serverDeleteItem w10st (some "Bearer tok1") "9"
        = ({ status := 404, data := none, error := some "Item not found" }, w10st) :=
  put_delete_enforce_ownership w10st (some "Bearer tok1") w10sess "9" {} 5
    (by decide) (by decide) (by decide)

/-! ### C2: update merge semantics -/

def c2db : LocalDB := { users := [], dataItems := [mkItem "1" "u" 0 0] }

def c2patch : ItemPatch := { id := some "hijacked", created_at := some 999 }

/-- C2 counterexample: on the local backend, an update payload that names id
and created_at does overwrite them (the object spread places the payload after
the existing record), contradicting the claim for that backend. -/
theorem local_update_overwrites_id_and_created_at :
    (localUpdateItem c2db "1" c2patch 50).toOption.map
        (fun r => (r.1.id, r.1.created_at)) = some ("hijacked", 999) := by decide

/-- C2 amended: the SQLite backend obeys the full merge law, writing the
original id and created_at back even when the payload names them; the local
backend obeys the merge law only for payloads that do not name id or
created_at, which those can overwrite.  In both backends every key present in
the payload overwrites, every other field is preserved, and updated_at is set
to the current time. -/
theorem update_merge_semantics_amended :
    (∀ (db : SqliteDB) (id : String) (p : ItemPatch) (now : Timestamp) (old : DataItem),
      db.items.find? (fun it => it.id == id) = some old →
      sqliteUpdateItem db id p now
          = some (sqliteMerge old p now, { db with items := updateFirstBy db.items (fun it => it.id == id) (fun it => sqliteMerge it p now) })
      ∧ (sqliteMerge old p now).id = old.id
      ∧ (sqliteMerge old p now).created_at = old.created_at
      ∧ (sqliteMerge old p now).updated_at = now
      ∧ (p.name = none → (sqliteMerge old p now).name = old.name)
      ∧ (∀ v, p.name = some v → (sqliteMerge old p now).name = some v)
      ∧ (p.description = none → (sqliteMerge old p now).description = old.description)
      ∧ (∀ v, p.description = some v → (sqliteMerge old p now).description = some v)
      ∧ (p.status = none → (sqliteMerge old p now).status = old.status)
      ∧ (∀ v, p.status = some v → (sqliteMerge old p now).status = some v)
      ∧ (p.category = none → (sqliteMerge old p now).category = old.category)
      ∧ (∀ v, p.category = some v → (sqliteMerge old p now).category = some v)
      ∧ (p.quantity = none → (sqliteMerge old p now).quantity = old.quantity)
      ∧ (∀ v, p.quantity = some v → (sqliteMerge old p now).quantity = some v)
      ∧ (p.user_id = none → (sqliteMerge old p now).user_id = old.user_id)
      ∧ (∀ v, p.user_id = some v → (sqliteMerge old p now).user_id = v))
    ∧ (∀ (db : LocalDB) (id : String) (p : ItemPatch) (now : Timestamp) (old : DataItem),
      p.id = none → p.created_at = none →
      db.dataItems.find? (fun it => it.id == id) = some old →
      localUpdateItem db id p now
          = .ok (spreadPatch old p now, { db with dataItems := updateFirstBy db.dataItems (fun it => it.id == id) (fun it => spreadPatch it p now) })
      ∧ (spreadPatch old p now).id = old.id
      ∧ (spreadPatch old p now).created_at = old.created_at
      ∧ (spreadPatch old p now).updated_at = now
      ∧ (p.name = none → (spreadPatch old p now).name = old.name)
      ∧ (∀ v, p.name = some v → (spreadPatch old p now).name = some v)
      ∧ (p.description = none → (spreadPatch old p now).description = old.description)
      ∧ (∀ v, p.description = some v → (spreadPatch old p now).description = some v)
      ∧ (p.status = none → (spreadPatch old p now).status = old.status)
      ∧ (∀ v, p.status = some v → (spreadPatch old p now).status = some v)
      ∧ (p.category = none → (spreadPatch old p now).category = old.category)
      ∧ (∀ v, p.category = some v → (spreadPatch old p now).category = some v)
      ∧ (p.quantity = none → (spreadPatch old p now).quantity = old.quantity)
      ∧ (∀ v, p.quantity = some v → (spreadPatch old p now).quantity = some v)
      ∧ (p.user_id = none → (spreadPatch old p now).user_id = old.user_id)
      ∧ (∀ v, p.user_id = some v → (spreadPatch old p now).user_id = v)) := by
  constructor
  · intro db id p now old h
    refine ⟨by simp [sqliteUpdateItem, h], rfl, rfl, rfl,
      ?_, ?_, ?_, ?_, ?_, ?_, ?_, ?_, ?_, ?_, ?_, ?_⟩
    all_goals intros
    all_goals simp_all [sqliteMerge, spreadPatch, patchFieldO, patchField]
  · intro db id p now old hpid hpc h
    refine ⟨by simp [localUpdateItem, h], ?_, ?_, rfl,
      ?_, ?_, ?_, ?_, ?_, ?_, ?_, ?_, ?_, ?_, ?_, ?_⟩
    all_goals intros
    all_goals simp_all [spreadPatch, patchFieldO, patchField]

def w2old : DataItem := mkItem "1" "u" 3 4

def w2sdb : SqliteDB := { users := [], items := [w2old] }

def w2ldb : LocalDB := { users := [], dataItems := [w2old] }

def w2patch : ItemPatch := { status := some "completed" }

/-- Witness for C2 at a concrete store and a status-only payload. -/
theorem update_merge_semantics_amended_witness :
    (sqliteMerge w2old w2patch 50).created_at = w2old.created_at
    ∧ (spreadPatch w2old w2patch 50).created_at = w2old.created_at :=
  ⟨(update_merge_semantics_amended.1 w2sdb "1" w2patch 50 w2old (by decide)).2.2.1,
   (update_merge_semantics_amended.2 w2ldb "1" w2patch 50 w2old rfl rfl
      (by decide)).2.2.1⟩

/-! ### C3: fetch ordering -/

def c3a : DataItem := mkItem "a" "u" 1 1

def c3b : DataItem := mkItem "b" "u" 2 2

def c3c : DataItem := mkItem "c" "u" 3 3

def c3db : LocalDB := { users := [], dataItems := [c3a, c3b, c3c] }

/-- C3 counterexample: the local backend's fetchData is a plain filter and
returns storage (insertion) order, so three items created at times 1 < 2 < 3
come back oldest first, not newest first. -/
theorem local_fetch_not_sorted_by_created_at :
    localFetchData c3db "u" = [c3a, c3b, c3c]
    ∧ localFetchData c3db "u" ≠ [c3c, c3b, c3a]
    ∧ c3a.created_at < c3b.created_at ∧ c3b.created_at < c3c.created_at := by decide

/-- C3 amended: the SQLite backend's fetchData returns exactly the user's
items sorted by created_at descending (newest first); the local backend's
fetchData returns the user's items in storage order with no sorting. -/
theorem fetch_order_amended :
    (∀ (db : SqliteDB) (uid : String),
      List.Pairwise (fun a b : DataItem => b.created_at ≤ a.created_at)
          (sqliteFetchData db uid)
      ∧ ∀ x, x ∈ sqliteFetchData db uid ↔ x ∈ db.items ∧ x.user_id = uid)
    ∧ (∀ (db : LocalDB) (uid : String),
      localFetchData db uid = db.dataItems.filter (fun it => it.user_id == uid)) := by
  constructor
  · intro db uid
    constructor
    · have htrans : ∀ a b c : DataItem, byNewest a b → byNewest b c → byNewest a c := by
        intro a b c hab hbc
        simp only [byNewest, decide_eq_true_eq] at hab hbc ⊢
        exact Nat.le_trans hbc hab
      have htotal : ∀ a b : DataItem, byNewest a b || byNewest b a := by
        intro a b
        simp only [byNewest, Bool.or_eq_true, decide_eq_true_eq]
        exact Nat.le_total _ _
      have hp := List.sorted_mergeSort htrans htotal
        (db.items.filter (fun item => item.user_id == uid))
      exact hp.imp (fun h => by simpa [byNewest] using h)
    · intro x
      rw [sqliteFetchData, List.mem_mergeSort, List.mem_filter]
      simp
  · intro db uid
    rfl

/-! ### C4: delete semantics -/

def c4db : SqliteDB := { users := [], items := [mkItem "1" "u" 0 0] }

/-- C4 counterexample: the SQLite backend's deleteItem resolves successfully
for an id that is not stored, and a second delete of the same id also
succeeds, contradicting the NotFound part of the claim for that backend. -/
theorem sqlite_delete_succeeds_when_absent :
    (sqliteDeleteItem c4db "ghost").1.error = none
    ∧ c4db.items.any (fun it => it.id == "ghost") = false
    ∧ ((sqliteDeleteItem (sqliteDeleteItem c4db "1").2 "1").1).error = none := by decide

/-- C4 amended: the local backend's deleteItem fails with Item not found
exactly when the id is absent; after a successful local delete (on a store
with distinct ids) the id never appears in later fetchData results and a
second delete of the same id fails with Item not found.  The SQLite backend's
delete is idempotent and always succeeds, but it too removes the id from all
later fetchData results. -/
theorem delete_semantics_amended :
    (∀ (db : LocalDB) (id : String),
        db.dataItems.any (fun it => it.id == id) = false →
        localDeleteItem db id = .error "Item not found")
    ∧ (∀ (db : LocalDB) (id : String),
        db.dataItems.any (fun it => it.id == id) = true →
        localDeleteItem db id
          = .ok { db with dataItems := db.dataItems.eraseP (fun it => it.id == id) })
    ∧ (∀ (db : LocalDB) (id : String) (db' : LocalDB),
        List.Pairwise (fun a b : DataItem => a.id ≠ b.id) db.dataItems →
        localDeleteItem db id = .ok db' →
        (∀ uid x, x ∈ localFetchData db' uid → x.id ≠ id)
        ∧ localDeleteItem db' id = .error "Item not found")
    ∧ (∀ (db : SqliteDB) (id uid : String) (x : DataItem),
        x ∈ sqliteFetchData (sqliteDeleteItem db id).2 uid → x.id ≠ id) := by
  refine ⟨?_, ?_, ?_, ?_⟩
  · intro db id h
    simp [localDeleteItem, h]
  · intro db id h
    simp [localDeleteItem, h]
  · intro db id db' hnd hdel
    unfold localDeleteItem at hdel
    split at hdel
    · simp only [Except.ok.injEq] at hdel
      subst hdel
      constructor
      · intro uid x hx
        exact eraseP_id_not_mem hnd (List.mem_of_mem_filter hx)
      · have hnone : ((db.dataItems.eraseP (fun it => it.id == id)).any
            (fun it => it.id == id)) = false := by
          rw [List.any_eq_false]
          intro x hx
          simpa using eraseP_id_not_mem hnd hx
        simp [localDeleteItem, hnone]
    · exact absurd hdel (by simp)
  · intro db id uid x hx
    simp only [sqliteFetchData, sqliteDeleteItem, List.mem_mergeSort,
      List.mem_filter] at hx
    rcases hx with ⟨⟨_, hne⟩, _⟩
    simpa using hne

def w4ldb : LocalDB := { users := [], dataItems := [mkItem "1" "u" 0 0] }

/-- Witness for C4: deleting an absent id fails, and a second delete of a
just-deleted id fails. -/
theorem delete_semantics_amended_witness :
    localDeleteItem w4ldb "zz" = .error "Item not found"
    ∧ localDeleteItem
        { w4ldb with dataItems := w4ldb.dataItems.eraseP (fun it => it.id == "1") } "1"
      = .error "Item not found" :=
  ⟨delete_semantics_amended.1 w4ldb "zz" (by decide),
   (delete_semantics_amended.2.2.1 w4ldb "1" _ (by decide)
      (delete_semantics_amended.2.1 w4ldb "1" (by decide))).2⟩

/-! ### C5: createItem validation -/

def emptyLdb : LocalDB := { users := [], dataItems := [] }

def c5payload : CreatePayload := { user_id := "u" }

def emptySdb : SqliteDB := { users := [], items := [] }

/-- C5 counterexample: the local and SQLite backends' createItem perform no
validation at all: a payload with name, description and status all absent
still creates and stores an item on both, contradicting the ValidationError
part of the claim for those backends. -/
theorem local_create_skips_validation :
    (localCreateItem emptyLdb c5payload 7).2.dataItems.length = 1
    ∧ (localCreateItem emptyLdb c5payload 7).1.name = none
    ∧ (localCreateItem emptyLdb c5payload 7).1.status = none
    ∧ (sqliteCreateItem emptySdb c5payload 7).toOption.map
        (fun r => (r.2.items.length, r.1.name, r.1.status))
      = some (1, none, none) := by decide

/-- C5 amended: only the Express POST handler validates the payload: with a
valid session it answers 400 when name, description or status is missing or
empty, and otherwise appends the new item (backend-assigned id and
timestamps, the session user's user_id) and answers 201 with it.  The local
backend's createItem performs no validation and always creates the item with
its assigned id and timestamps; the SQLite backend's createItem likewise
performs no required-field validation and creates the item whenever its
assigned key is fresh (its only failure is the key-constraint rejection,
which is unrelated to the payload's fields). -/
theorem create_validation_amended :
    (∀ (st : ServerState) (auth : Option String) (b : CreateBody) (now : Timestamp)
        (user : SessionUser),
      validateToken st.sessions auth = some user →
      ((falsyStr b.name || falsyStr b.description || falsyStr b.status) = true →
        serverCreateItem st auth b now
          = ({ status := 400, data := none,
               error := some "Name, description, and status are required" }, st))
      ∧ ((falsyStr b.name || falsyStr b.description || falsyStr b.status) = false →
        serverCreateItem st auth b now
          = ({ status := 201, data := some (.itemD (serverNewItem st b user now)),
               error := none },
             { st with items := st.items ++ [serverNewItem st b user now] })
        ∧ (serverNewItem st b user now).user_id = user.id
        ∧ (serverNewItem st b user now).created_at = now
        ∧ (serverNewItem st b user now).updated_at = now))
    ∧ (∀ (db : LocalDB) (p : CreatePayload) (now : Timestamp),
        localCreateItem db p now
          = (localNewItem p now, { db with dataItems := db.dataItems ++ [localNewItem p now] })
        ∧ (localNewItem p now).id = "local_" ++ toString now
        ∧ (localNewItem p now).created_at = now
        ∧ (localNewItem p now).updated_at = now)
    ∧ (∀ (db : SqliteDB) (p : CreatePayload) (now : Timestamp),
        db.items.any (fun it => it.id == (sqliteNewItem p now).id) = false →
        sqliteCreateItem db p now
          = .ok (sqliteNewItem p now, { db with items := db.items ++ [sqliteNewItem p now] })
        ∧ (sqliteNewItem p now).id = "sqlite_" ++ toString now
        ∧ (sqliteNewItem p now).created_at = now
        ∧ (sqliteNewItem p now).updated_at = now) := by
  refine ⟨?_, ?_, ?_⟩
  · intro st auth b now user hval
    constructor
    · intro hbad
      simp [serverCreateItem, hval, hbad]
    · intro hgood
      exact ⟨by simp [serverCreateItem, hval, hgood], rfl, rfl, rfl⟩
  · intro db p now
    exact ⟨rfl, rfl, rfl, rfl⟩
  · intro db p now hfresh
    exact ⟨by simp [sqliteCreateItem, hfresh], rfl, rfl, rfl⟩

/-- Witness for C5: a create request with an empty body under a valid session
is rejected with 400 and leaves the store unchanged, while the SQLite
backend's createItem stores the unvalidated payload on a fresh key. -/
theorem create_validation_amended_witness :
    serverCreateItem w10st (some "Bearer tok1") {} 5
      = ({ status := 400, data := none,
           error := some "Name, description, and status are required" }, w10st)
    ∧ sqliteCreateItem emptySdb c5payload 7
      = .ok (sqliteNewItem c5payload 7,
             { emptySdb with items := emptySdb.items ++ [sqliteNewItem c5payload 7] }) :=
  ⟨(create_validation_amended.1 w10st (some "Bearer tok1") {} 5 w10sess
      (by decide)).1 (by decide),
   (create_validation_amended.2.2 emptySdb c5payload 7 (by decide)).1⟩

/-! ### C6: sign-in and session semantics -/

def c6db : LocalDB := { users := [userA, userB], dataItems := [] }

/-- C6 counterexample: getSession ignores the token and always answers with
the first stored user's session, so after a valid sign-in as the second user
the subsequent getSession yields a session whose user id differs from the
authenticated user's id. -/
theorem get_session_ignores_token :
    (localSignIn c6db "second@example.com" "hunter2").toOption
        = some (localSession userB)
    ∧ localGetSession c6db = some (localSession userA)
    ∧ (localSession userB).user.id ≠ (localSession userA).user.id := by decide

/-- C6 amended: invalid credentials always fail with exactly the
Invalid-email-or-password error on both modelled backends, never an unrelated
error; valid credentials yield a session whose token is the backend tag plus
the user id; but getSession ignores the token and answers with the first
stored user's session, so the claimed user-id agreement holds exactly when
the authenticated user is the first stored user. -/
theorem sign_in_semantics_amended :
    (∀ (db : LocalDB) (e p : String),
        (∀ u ∈ db.users, ¬(u.email = e ∧ u.password = p)) →
        localSignIn db e p = .error "Invalid email or password")
    ∧ (∀ (db : SqliteDB) (e p : String),
        (∀ u ∈ db.users, u.email ≠ e) →
        sqliteSignIn db e p
          = { session := none, error := some "Invalid email or password" })
    ∧ (∀ (db : SqliteDB) (e p : String) (u : User),
        db.users.find? (fun v => v.email == e) = some u → u.password ≠ p →
        sqliteSignIn db e p
          = { session := none, error := some "Invalid email or password" })
    ∧ (∀ (db : LocalDB) (u : User) (rest : List User) (e p : String),
        db.users = u :: rest → u.email = e → u.password = p →
        localSignIn db e p = .ok (localSession u)
        ∧ localGetSession db = some (localSession u)
        ∧ (localSession u).access_token = "local_token_" ++ u.id
        ∧ (localSession u).user.id = u.id)
    ∧ (∀ (db : SqliteDB) (u : User) (rest : List User) (e p : String),
        db.users = u :: rest → u.email = e → u.password = p →
        sqliteSignIn db e p = { session := some (sqliteSession u), error := none }
        ∧ sqliteGetSession db = some (sqliteSession u)
        ∧ (sqliteSession u).access_token = "sqlite_token_" ++ u.id
        ∧ (sqliteSession u).user.id = u.id) := by
  refine ⟨?_, ?_, ?_, ?_, ?_⟩
  · intro db e p h
    have hfind : db.users.find? (fun u => u.email == e && u.password == p) = none := by
      rw [List.find?_eq_none]
      intro x hx
      simpa using h x hx
    simp [localSignIn, hfind]
  · intro db e p h
    have hfind : db.users.find? (fun v => v.email == e) = none := by
      rw [List.find?_eq_none]
      intro x hx
      simpa using h x hx
    simp [sqliteSignIn, hfind]
  · intro db e p u hf hne
    have hpw : (u.password == p) = false := by simpa using hne
    simp [sqliteSignIn, hf, hpw]
  · intro db u rest e p hu he hp
    subst he
    subst hp
    have hfind : db.users.find?
        (fun v => v.email == u.email && v.password == u.password) = some u := by
      rw [hu]
      exact List.find?_cons_of_pos _ (by simp)
    have hhead : db.users.head? = some u := by rw [hu]; rfl
    exact ⟨by simp [localSignIn, hfind], by simp [localGetSession, hhead], rfl, rfl⟩
  · intro db u rest e p hu he hp
    subst he
    subst hp
    have hfind : db.users.find? (fun v => v.email == u.email) = some u := by
      rw [hu]
      exact List.find?_cons_of_pos _ (by simp)
    have hhead : db.users.head? = some u := by rw [hu]; rfl
    exact ⟨by simp [sqliteSignIn, hfind], by simp [sqliteGetSession, hhead], rfl, rfl⟩

/-- Witness for C6 at concrete stores and credentials. -/
theorem sign_in_semantics_amended_witness :
    localSignIn c6db "nobody@example.com" "pw" = .error "Invalid email or password"
    ∧ localSignIn c6db "test@example.com" "password123" = .ok (localSession userA)
    ∧ localGetSession c6db = some (localSession userA) :=
  ⟨sign_in_semantics_amended.1 c6db "nobody@example.com" "pw" (by decide),
   (sign_in_semantics_amended.2.2.2.1 c6db userA [userB] "test@example.com"
      "password123" rfl rfl rfl).1,
   (sign_in_semantics_amended.2.2.2.1 c6db userA [userB] "test@example.com"
      "password123" rfl rfl rfl).2.1⟩

/-! ### C7: id uniqueness on the Express backend -/

def c7auth : Option String := some "Bearer tok1"

def c7st0 : ServerState :=
  { users := [], items := [mkItem "1" "1" 0 0], sessions := [("tok1", w10sess)] }

def c7body : CreateBody :=
  { name := some "X", description := some "Y", status := some "active" }

def c7st4 : ServerState :=
  (serverCreateItem
    (serverDeleteItem
      (serverCreateItem
        (serverCreateItem c7st0 c7auth c7body 10).2
        c7auth c7body 11).2
      c7auth "2").2
    c7auth c7body 12).2

/-- C7: the Express POST handler assigns ids as the collection length plus
one, so the sequence create, create, delete id 2, create reuses id 3 while an
item with id 3 is still stored: two stored items then share an id. -/
theorem server_ids_collide_after_delete :
    (c7st4.items.map (fun it => it.id)).count "3" = 2
    ∧ ¬ (c7st4.items.map (fun it => it.id)).Nodup
    ∧ c7st4.items.length = 3 := by decide

/-! ### C9: the timestamp invariant -/

def c9db : LocalDB := { users := [], dataItems := [mkItem "1" "u" 0 0] }

def c9patch : ItemPatch := { created_at := some 100 }

/-- C9 counterexample: on the local backend an update payload naming a future
created_at overwrites it, producing a stored item with updated_at strictly
below created_at, contradicting the claim that created_at is never changed
and the invariant always preserved. -/
theorem local_update_can_break_timestamp_invariant :
    (localUpdateItem c9db "1" c9patch 50).toOption.map
        (fun r => (r.1.created_at, r.1.updated_at)) = some (100, 50)
    ∧ (50 : Nat) < 100 := by decide

/-- C9 amended: createItem sets both timestamps to the creation time on both
modelled backends; the SQLite merge preserves created_at and sets a fresh
updated_at, so along every SQLite operation trace with nondecreasing times
every stored item satisfies created_at less-or-equal updated_at; the local
spread preserves created_at only when the payload does not name it. -/
theorem timestamp_invariant_amended :
    (∀ (p : CreatePayload) (now : Timestamp),
        (sqliteNewItem p now).created_at = now ∧ (sqliteNewItem p now).updated_at = now
        ∧ (localNewItem p now).created_at = now ∧ (localNewItem p now).updated_at = now)
    ∧ (∀ (item : DataItem) (p : ItemPatch) (now : Timestamp),
        (sqliteMerge item p now).created_at = item.created_at
        ∧ (sqliteMerge item p now).updated_at = now)
    ∧ (∀ (item : DataItem) (p : ItemPatch) (now : Timestamp), p.created_at = none →
        (spreadPatch item p now).created_at = item.created_at
        ∧ (spreadPatch item p now).updated_at = now)
    ∧ (∀ (db : SqliteDB) (t : Timestamp) (ops : List (Timestamp × SqliteOp)),
        stamped db t → timesLE t ops = true →
        ∀ item ∈ (sqliteRun db ops).items, item.created_at ≤ item.updated_at) := by
  refine ⟨fun p now => ⟨rfl, rfl, rfl, rfl⟩,
    fun item p now => ⟨rfl, rfl⟩, ?_, ?_⟩
  · intro item p now hc
    exact ⟨by simp [spreadPatch, patchField, hc], rfl⟩
  · intro db t ops h hops item hm
    exact (stamped_run h hops item hm).2.2

def w9ops : List (Timestamp × SqliteOp) :=
  [(5, .createOp c5payload), (7, .updateOp "sqlite_5" { status := some "done" })]

def w9item : DataItem :=
  { id := "sqlite_5", name := none, description := none, status := some "done",
    category := none, quantity := none, user_id := "u", created_at := 5,
    updated_at := 7 }

/-- Witness for C9: a concrete create-then-update trace on the SQLite backend
yields an item whose timestamps satisfy the invariant. -/
theorem timestamp_invariant_amended_witness :
    w9item.created_at ≤ w9item.updated_at :=
  timestamp_invariant_amended.2.2.2 { users := [], items := [] } 0 w9ops
    (by intro item hm; exact absurd hm (List.not_mem_nil item))
    (by decide) w9item (by decide)

end DemoApp
